import Mathlib

set_option autoImplicit false

/-!
Shallow embedding of src/server.py: the StationService gRPC gateway over a
replicated Cassandra store (keyspace weather, table stations), covering the
consistency policy set in StationService.init, the four request handlers, the
StationMax aggregation scan, the upsert semantics of the stations table, and
the startup schema bootstrap.
-/

/-- Consistency levels of the driver enum used in server.py. -/
inductive CLevel where
  | ONE
  | TWO
  | THREE
  | QUORUM
  | ALL
  deriving DecidableEq

/-- The four statements prepared during StationService.init: the per-station
seed insert of a static name, the RecordTemps insert, the StationName select
and the StationMax select. -/
inductive Stmt where
  | init_insert_name
  | insert_temp
  | select_name
  | select_tmax
  deriving DecidableEq

/-- Consistency level explicitly assigned to each prepared statement in
StationService.init; none when the code never sets the statement's
consistency-level attribute, which is the case for the seed insert
init_insert_name (the driver default then applies). -/
def assignedConsistency : Stmt → Option CLevel
  | .init_insert_name => none
  | .insert_temp => some .ONE
  | .select_name => some .ONE
  | .select_tmax => some .THREE

/-- Replication factor of the weather keyspace, from the CREATE KEYSPACE
statement in StationService.init. -/
def replicationFactor : Nat := 3

/-- Outcome of a single store call as observed by a handler: ok with a value,
an unavailability exception (cassandra.Unavailable or
cassandra.cluster.NoHostAvailable, carrying its message string), or any other
exception carrying its message string. -/
inductive QueryOutcome (α : Type) where
  | ok (val : α)
  | unavailable (msg : String)
  | err (msg : String)
  deriving DecidableEq

/-- Whether an outcome is a failure (an exception) rather than a result. -/
def isFailureOutcome {α : Type} : QueryOutcome α → Bool
  | .ok _ => false
  | .unavailable _ => true
  | .err _ => true

/-- Reply shape of StationSchema. -/
structure StationSchemaReply where
  schema : String
  error : String
  deriving DecidableEq

/-- Reply shape of StationName. -/
structure StationNameReply where
  name : String
  error : String
  deriving DecidableEq

/-- Reply shape of RecordTemps. -/
structure RecordTempsReply where
  error : String
  deriving DecidableEq

/-- Reply shape of StationMax. -/
structure StationMaxReply where
  tmax : Int
  error : String
  deriving DecidableEq

/-- StationSchema handler: on success returns the metadata export string with
empty error; its except clause is generic, so every exception (including an
unavailability one) is returned as its message string with empty schema. -/
def stationSchema (outcome : QueryOutcome String) : StationSchemaReply :=
  match outcome with
  | .ok s => ⟨s, ""⟩
  | .unavailable m => ⟨"", m⟩
  | .err m => ⟨"", m⟩

/-- StationName handler over the outcome of executing select_name and taking
one row: none models no row, some none a row whose name column is NULL, and
some (some n) a row with name n. The code tests row and row.name, and Python
truthiness makes both a NULL and an empty name fall to the not-found branch.
Its except clause is generic: every exception is returned as its message. -/
def stationName (outcome : QueryOutcome (Option (Option String))) : StationNameReply :=
  match outcome with
  | .ok (some (some n)) =>
      if n = "" then ⟨"", "station not found or name missing"⟩
      else ⟨n, ""⟩
  | .ok (some none) => ⟨"", "station not found or name missing"⟩
  | .ok none => ⟨"", "station not found or name missing"⟩
  | .unavailable m => ⟨"", m⟩
  | .err m => ⟨"", m⟩

/-- RecordTemps handler over the outcome of executing insert_temp: empty error
on success, the literal string unavailable on an unavailability exception, and
the message string of any other exception. -/
def recordTemps (outcome : QueryOutcome Unit) : RecordTempsReply :=
  match outcome with
  | .ok _ => ⟨""⟩
  | .unavailable _ => ⟨"unavailable"⟩
  | .err m => ⟨m⟩

/-- One iteration of the StationMax scan: max_tmax is updated when the row
yields a readable tmax and it exceeds the current maximum (or none was seen
yet); a row of none models a NULL or unreadable record.tmax, which the inner
try in the loop skips. -/
def maxStep (acc : Option Int) (row : Option Int) : Option Int :=
  match row with
  | none => acc
  | some v =>
      match acc with
      | none => some v
      | some m => if v > m then some v else some m

/-- The StationMax aggregation: fold the scan over all rows of the partition,
starting from no maximum, and default the final answer to 0 when no row
yielded a valid value. -/
def maxTmax (rows : List (Option Int)) : Int :=
  (rows.foldl maxStep none).getD 0

/-- StationMax handler: the prepared flag is the hasattr guard on select_tmax
at the top of the handler; the outcome is the execution of select_tmax, whose
rows each carry an optional tmax. -/
def stationMax (prepared : Bool) (outcome : QueryOutcome (List (Option Int))) : StationMaxReply :=
  if prepared then
    match outcome with
    | .ok rows => ⟨maxTmax rows, ""⟩
    | .unavailable _ => ⟨0, "unavailable"⟩
    | .err m => ⟨0, m⟩
  else ⟨0, "Server error: select statement not prepared"⟩

/-- A row key of the stations table: partition key id and clustering key date. -/
abbrev RowKey : Type := String × String

/-- The station_record user-defined type; the field order (tmin, tmax) matches
the CREATE TYPE definition and is positional at the storage level. -/
structure StationRecord where
  tmin : Int
  tmax : Int
  deriving DecidableEq

/-- The record cells of the stations table, keyed by (id, date); since
(id, date) is the primary key, the table holds at most one record per key. -/
abbrev StoreState : Type := List (RowKey × StationRecord)

/-- Upsert semantics of the insert_temp statement: writing key k replaces any
previously stored record at k (last-write-wins). -/
def insertRecord (st : StoreState) (k : RowKey) (r : StationRecord) : StoreState :=
  (k, r) :: st.filter (fun e => decide (e.1 ≠ k))

/-- Rows produced by executing select_tmax for a station id: one optional tmax
per stored row of that partition. -/
def selectTmaxRows (st : StoreState) (id : String) : List (Option Int) :=
  (st.filter (fun e => decide (e.1.1 = id))).map (fun e => some e.2.tmax)

/-- Execution of RecordTemps against a store state when the required write
consistency is met: the insert succeeds and the reply is the success reply. -/
def runRecordTemps (st : StoreState) (id date : String) (tmin tmax : Int) :
    StoreState × RecordTempsReply :=
  (insertRecord st (id, date) ⟨tmin, tmax⟩, recordTemps (QueryOutcome.ok ()))

/-- Execution of StationMax against a store state when the required read
consistency is met. -/
def runStationMax (st : StoreState) (id : String) : StationMaxReply :=
  stationMax true (QueryOutcome.ok (selectTmaxRows st id))

/-- A batch of later RecordTemps writes applied in order. -/
def applyWrites (st : StoreState) (ops : List (RowKey × StationRecord)) : StoreState :=
  ops.foldl (fun acc op => insertRecord acc op.1 op.2) st

/-- Definition of a table as created by the bootstrap DDL. -/
structure TableDef where
  name : String
  partitionKey : String
  clusteringKey : String
  clusteringAsc : Bool
  columns : List (String × String)
  staticColumns : List String
  deriving DecidableEq

/-- Tracked state of the weather keyspace: replication strategy and factor,
user-defined types, tables, and the stored rows of the stations table. -/
structure KeyspaceDef where
  strategy : String
  replication_factor : Nat
  types : List (String × List (String × String))
  tables : List TableDef
  rows : StoreState
  deriving DecidableEq

/-- The startup steps of StationService.init whose failure is fatal, in source
order: the DDL statements and the preparation of the three RPC statements. -/
inductive InitStep where
  | dropKeyspaceIfExists
  | createKeyspace (strategy : String) (rf : Nat)
  | useKeyspace
  | createTypeIfNotExists (tyName : String) (fields : List (String × String))
  | createTableIfNotExists (t : TableDef)
  | prepareRpcStmt (s : Stmt)
  deriving DecidableEq

/-- The stations table exactly as the CREATE TABLE statement declares it:
partition key id, clustering key date ascending, name static. -/
def stationsTable : TableDef :=
  ⟨"stations", "id", "date", true,
    [("id", "text"), ("date", "date"), ("name", "text"), ("record", "station_record")],
    ["name"]⟩

/-- The fatal startup sequence of StationService.init, in source order. The
per-station seed loop that runs between table creation and RPC statement
preparation wraps each iteration in a try whose except clause passes, so its
failures (including failure to prepare init_insert_name) are swallowed and do
not belong to this fatal sequence. -/
def initFatalSteps : List InitStep :=
  [ .dropKeyspaceIfExists
  , .createKeyspace "SimpleStrategy" 3
  , .useKeyspace
  , .createTypeIfNotExists "station_record" [("tmin", "int"), ("tmax", "int")]
  , .createTableIfNotExists stationsTable
  , .prepareRpcStmt .insert_temp
  , .prepareRpcStmt .select_name
  , .prepareRpcStmt .select_tmax ]

/-- CQL semantics of one startup step over the tracked keyspace (none when the
weather keyspace is absent): the drop is unconditional, the create has no
if-not-exists guard and fails if the keyspace exists, and the type and table
creations are guarded by if-not-exists. -/
def applyInitStep (ks : Option KeyspaceDef) (step : InitStep) :
    Except String (Option KeyspaceDef) :=
  match step with
  | .dropKeyspaceIfExists => .ok none
  | .createKeyspace strat rf =>
      match ks with
      | some _ => .error "keyspace weather already exists"
      | none => .ok (some ⟨strat, rf, [], [], []⟩)
  | .useKeyspace =>
      match ks with
      | some k => .ok (some k)
      | none => .error "keyspace weather does not exist"
  | .createTypeIfNotExists n fields =>
      match ks with
      | none => .error "no keyspace selected"
      | some k =>
          if k.types.any (fun t => t.1 = n) then .ok (some k)
          else .ok (some ⟨k.strategy, k.replication_factor, k.types ++ [(n, fields)], k.tables, k.rows⟩)
  | .createTableIfNotExists t =>
      match ks with
      | none => .error "no keyspace selected"
      | some k =>
          if k.tables.any (fun tb => tb.name = t.name) then .ok (some k)
          else .ok (some ⟨k.strategy, k.replication_factor, k.types, k.tables ++ [t], k.rows⟩)
  | .prepareRpcStmt _ => .ok ks

/-- Run the fatal startup steps from a given prior cluster state, assuming the
store accepts every call; the first failing step aborts the run. -/
def bootstrapSchema (prior : Option KeyspaceDef) : Except String (Option KeyspaceDef) :=
  initFatalSteps.foldlM applyInitStep prior

/-- Whether StationService.init completes and the process reaches the serving
state (prints the readiness line and serve starts the gRPC server), given
which fatal startup steps the store lets succeed: every step must succeed,
since each is executed outside any swallowing handler and the statement
preparation block re-raises. -/
def reachesServing (ok : InitStep → Bool) : Bool :=
  initFatalSteps.all ok

/-- The weather keyspace as a successful bootstrap leaves it: replication
factor 3 under SimpleStrategy, the station_record type, the stations table,
and no rows. -/
def weatherKeyspace : KeyspaceDef :=
  ⟨"SimpleStrategy", 3,
    [("station_record", [("tmin", "int"), ("tmax", "int")])],
    [stationsTable], []⟩

/-! Lemmas about the StationMax aggregation fold. -/

/-- A none row leaves the accumulator unchanged. -/
theorem maxStep_none_row (acc : Option Int) : maxStep acc none = acc := rfl

/-- Scanning a readable value into an existing maximum takes their maximum. -/
theorem maxStep_some_some (m v : Int) : maxStep (some m) (some v) = some (max m v) := by
  by_cases h : v > m
  · simp [maxStep, h, max_eq_right h.le]
  · simp [maxStep, h, max_eq_left (not_lt.mp h)]

/-- The scan over optional rows equals the scan over the readable values. -/
theorem foldl_maxStep_filterMap (rows : List (Option Int)) (acc : Option Int) :
    rows.foldl maxStep acc
      = (rows.filterMap id).foldl (fun a v => maxStep a (some v)) acc := by
  induction rows generalizing acc with
  | nil => rfl
  | cons r rs ih =>
      cases r with
      | none => simpa using ih acc
      | some v => simpa using ih (maxStep acc (some v))

/-- Once a maximum exists, the scan computes the fold of max over the values. -/
theorem foldl_maxStep_some (vs : List Int) (m : Int) :
    vs.foldl (fun a v => maxStep a (some v)) (some m) = some (vs.foldl max m) := by
  induction vs generalizing m with
  | nil => rfl
  | cons v vs ih => simpa [maxStep_some_some] using ih (max m v)

/-- Anything below the seed stays below the fold of max. -/
theorem le_foldl_max (vs : List Int) (m w : Int) (h : w ≤ m) : w ≤ vs.foldl max m := by
  induction vs generalizing m with
  | nil => exact h
  | cons v vs ih => exact ih (max m v) (h.trans (le_max_left m v))

/-- Every listed value is below the fold of max. -/
theorem mem_le_foldl_max (vs : List Int) : ∀ (m v : Int), v ∈ vs → v ≤ vs.foldl max m := by
  induction vs with
  | nil => intro m v h; cases h
  | cons u us ih =>
      intro m v h
      rcases List.mem_cons.mp h with rfl | hmem
      · exact le_foldl_max us (max m v) v (le_max_right m v)
      · exact ih (max m u) v hmem

/-- The fold of max is the seed or one of the listed values. -/
theorem foldl_max_mem_or (vs : List Int) : ∀ (m : Int),
    vs.foldl max m = m ∨ vs.foldl max m ∈ vs := by
  induction vs with
  | nil => intro m; exact Or.inl rfl
  | cons u us ih =>
      intro m
      rw [List.foldl_cons]
      rcases ih (max m u) with heq | hmem
      · rw [heq]
        rcases max_choice m u with hm | hu
        · exact Or.inl hm
        · right
          rw [hu]
          exact List.mem_cons_self u us
      · exact Or.inr (List.mem_cons_of_mem u hmem)

/-- Scanning a readable value into an empty maximum keeps it. -/
theorem maxStep_none_acc (v : Int) : maxStep none (some v) = some v := rfl

/-- With no readable value the aggregation defaults to 0. -/
theorem maxTmax_of_no_valid (rows : List (Option Int)) (h : rows.filterMap id = []) :
    maxTmax rows = 0 := by
  simp [maxTmax, foldl_maxStep_filterMap, h]

/-- With at least one readable value the aggregation returns one of them. -/
theorem maxTmax_mem (rows : List (Option Int)) (h : rows.filterMap id ≠ []) :
    maxTmax rows ∈ rows.filterMap id := by
  obtain ⟨v, vs, hvv⟩ := List.exists_cons_of_ne_nil h
  have hfold : maxTmax rows = vs.foldl max v := by
    simp [maxTmax, foldl_maxStep_filterMap, hvv, maxStep_none_acc, foldl_maxStep_some]
  rw [hvv, hfold]
  rcases foldl_max_mem_or vs v with heq | hmem
  · rw [heq]
    exact List.mem_cons_self v vs
  · exact List.mem_cons_of_mem v hmem

/-- Every readable value is below the aggregation result. -/
theorem le_maxTmax (rows : List (Option Int)) (w : Int) (h : w ∈ rows.filterMap id) :
    w ≤ maxTmax rows := by
  obtain ⟨v, vs, hvv⟩ := List.exists_cons_of_ne_nil (List.ne_nil_of_mem h)
  have hfold : maxTmax rows = vs.foldl max v := by
    simp [maxTmax, foldl_maxStep_filterMap, hvv, maxStep_none_acc, foldl_maxStep_some]
  rw [hfold]
  rcases List.mem_cons.mp (hvv ▸ h) with rfl | hmem
  · exact le_foldl_max vs w w le_rfl
  · exact mem_le_foldl_max vs v w hmem

/-! Lemmas about the stations table upsert model. -/

/-- The written entry is stored. -/
theorem mem_insertRecord_self (st : StoreState) (k : RowKey) (r : StationRecord) :
    (k, r) ∈ insertRecord st k r :=
  List.mem_cons_self (k, r) (st.filter (fun e => decide (e.1 ≠ k)))

/-- A stored entry survives a write to a different key. -/
theorem mem_insertRecord_of_ne (st : StoreState) (k k2 : RowKey) (r r2 : StationRecord)
    (hne : k ≠ k2) (hm : (k, r) ∈ st) : (k, r) ∈ insertRecord st k2 r2 := by
  refine List.mem_cons_of_mem _ (List.mem_filter.mpr ⟨hm, ?_⟩)
  simpa using hne

/-- A stored entry survives a batch of writes that all use different keys. -/
theorem mem_applyWrites (ops : List (RowKey × StationRecord)) :
    ∀ (st : StoreState) (k : RowKey) (r : StationRecord),
      (k, r) ∈ st → (∀ op ∈ ops, op.1 ≠ k) → (k, r) ∈ applyWrites st ops := by
  induction ops with
  | nil => intro st k r hm _; exact hm
  | cons op ops ih =>
      intro st k r hm hops
      have h1 : (k, r) ∈ insertRecord st op.1 op.2 :=
        mem_insertRecord_of_ne st k op.1 r op.2
          (fun h => hops op (List.mem_cons_self op ops) h.symm) hm
      exact ih (insertRecord st op.1 op.2) k r h1
        (fun o ho => hops o (List.mem_cons_of_mem op ho))

/-- The tmax of a stored entry of the partition is among the readable values
the StationMax select produces. -/
theorem tmax_mem_selectTmaxRows (st : StoreState) (sid d : String) (r : StationRecord)
    (hm : ((sid, d), r) ∈ st) : r.tmax ∈ (selectTmaxRows st sid).filterMap id := by
  refine List.mem_filterMap.mpr ⟨some r.tmax, ?_, rfl⟩
  refine List.mem_map.mpr ⟨((sid, d), r), List.mem_filter.mpr ⟨hm, by simp⟩, rfl⟩

/-- Writing the same key and record twice is the same write once. -/
theorem insertRecord_idem (st : StoreState) (k : RowKey) (r : StationRecord) :
    insertRecord (insertRecord st k r) k r = insertRecord st k r := by
  unfold insertRecord
  rw [List.filter_cons]
  simp [List.filter_filter]

/-! Claim theorems. -/

/-- C1 counterexample: the seed insert init_insert_name does not execute at an
assigned consistency level ONE; StationService.init never sets its
consistency-level attribute, unlike the three RPC statements. -/
theorem seed_statement_not_consistency_one :
    assignedConsistency Stmt.init_insert_name ≠ some CLevel.ONE := by decide

/-- C1 (amended): the consistency policy applied to the prepared statements
assigns ONE to the RecordTemps insert, ONE to the name read, and THREE (equal
to the replication factor 3) to the tmax read, while the seed insert of a
station name gets no assignment at all (the driver default applies to it). -/
theorem consistency_policy_assignments :
    assignedConsistency Stmt.init_insert_name = none ∧
    assignedConsistency Stmt.insert_temp = some CLevel.ONE ∧
    assignedConsistency Stmt.select_name = some CLevel.ONE ∧
    assignedConsistency Stmt.select_tmax = some CLevel.THREE ∧
    replicationFactor = 3 := by decide

/-- C2: StationMax returns the maximum over all rows whose tmax is present and
readable, skipping the others; its error is always empty on a successful read,
and when no row yields a valid value (in particular on an empty partition) it
returns tmax 0 with empty error. -/
theorem stationMax_aggregation_spec (rows : List (Option Int)) :
    (stationMax true (QueryOutcome.ok rows)).error = "" ∧
    (rows.filterMap id = [] → stationMax true (QueryOutcome.ok rows) = ⟨0, ""⟩) ∧
    (∀ w ∈ rows.filterMap id, w ≤ (stationMax true (QueryOutcome.ok rows)).tmax) ∧
    (rows.filterMap id ≠ [] → (stationMax true (QueryOutcome.ok rows)).tmax ∈ rows.filterMap id) := by
  refine ⟨by simp [stationMax], ?_, ?_, ?_⟩
  · intro h
    simp [stationMax, maxTmax_of_no_valid rows h]
  · intro w hw
    simpa [stationMax] using le_maxTmax rows w hw
  · intro h
    simpa [stationMax] using maxTmax_mem rows h

/-- C2 witness: on rows with no readable value the reply is 0 with empty
error, and on rows with readable values 3 and 7 the reply bounds 3 and is one
of the readable values. -/
theorem stationMax_aggregation_spec_witness :
    stationMax true (QueryOutcome.ok [none]) = ⟨0, ""⟩ ∧
    (([none, some 3, some 7] : List (Option Int)).filterMap id ≠ []) ∧
    (3 : Int) ≤ (stationMax true (QueryOutcome.ok [none, some 3, some 7])).tmax ∧
    (stationMax true (QueryOutcome.ok [none, some 3, some 7])).tmax
      ∈ ([none, some 3, some 7] : List (Option Int)).filterMap id := by
  refine ⟨(stationMax_aggregation_spec [none]).2.1 (by decide), by decide, ?_,
    (stationMax_aggregation_spec [none, some 3, some 7]).2.2.2 (by decide)⟩
  exact (stationMax_aggregation_spec [none, some 3, some 7]).2.2.1 3 (by decide)

/-- C3: when the store cannot meet the required consistency level (the
unavailability outcome, whatever message the exception carries), RecordTemps
replies with exactly the literal error string unavailable and StationMax with
tmax 0 and exactly that literal; the handler consumes the single outcome of
its one store call, so the failure is surfaced directly, with no retry. -/
theorem unavailable_literal_surfaced (m : String) :
    recordTemps (QueryOutcome.unavailable m) = ⟨"unavailable"⟩ ∧
    stationMax true (QueryOutcome.unavailable m) = ⟨0, "unavailable"⟩ :=
  ⟨rfl, rfl⟩

/-- C4 counterexample: a generic (non-quorum) failure whose message happens to
be the string unavailable is answered with the reserved literal in the error
field, so the reply alone does not keep it separate from the quorum case. -/
theorem generic_error_literal_collision :
    isFailureOutcome (QueryOutcome.err "unavailable" : QueryOutcome Unit) = true ∧
    (QueryOutcome.err "unavailable" : QueryOutcome Unit) ≠ QueryOutcome.unavailable "unavailable" ∧
    (recordTemps (QueryOutcome.err "unavailable")).error = "unavailable" ∧
    (stationMax true (QueryOutcome.err "unavailable")).error = "unavailable" := by decide

/-- C4 (amended): every non-quorum failure of RecordTemps or StationMax is
answered with that failure's message string verbatim (with tmax defaulted to
0), and the error field differs from the reserved literal unavailable whenever
the message itself does. -/
theorem generic_error_verbatim (m : String) :
    recordTemps (QueryOutcome.err m) = ⟨m⟩ ∧
    stationMax true (QueryOutcome.err m) = ⟨0, m⟩ ∧
    (m ≠ "unavailable" →
      (recordTemps (QueryOutcome.err m)).error ≠ "unavailable" ∧
      (stationMax true (QueryOutcome.err m)).error ≠ "unavailable") := by
  refine ⟨rfl, rfl, ?_⟩
  intro h
  exact ⟨h, h⟩

/-- C4 witness: a generic failure with message boom is returned verbatim and
its error field is not the reserved literal. -/
theorem generic_error_verbatim_witness :
    ("boom" ≠ "unavailable") ∧
    recordTemps (QueryOutcome.err "boom") = ⟨"boom"⟩ ∧
    (recordTemps (QueryOutcome.err "boom")).error ≠ "unavailable" := by
  have h := generic_error_verbatim "boom"
  exact ⟨by decide, h.1, (h.2.2 (by decide)).1⟩

/-- C5 counterexample: after inserting tmax 31 at a (station, date) key, a
later RecordTemps reusing the same key with tmax 5 overwrites the record under
last-write-wins, and the subsequent StationMax returns 5, below the earlier
inserted 31 - refuting the claim that every subsequent StationMax is at least
every previously inserted tmax even across same-key overwrites. -/
theorem stationMax_overwrite_decreases :
    runStationMax (runRecordTemps (runRecordTemps [] "USW00014837" "2023-07-01" 18 31).1
        "USW00014837" "2023-07-01" 0 5).1 "USW00014837" = ⟨5, ""⟩ ∧
    ¬ ((31 : Int) ≤ (runStationMax (runRecordTemps
        (runRecordTemps [] "USW00014837" "2023-07-01" 18 31).1
        "USW00014837" "2023-07-01" 0 5).1 "USW00014837").tmax) := by decide

/-- C5 (amended): for every store state, after a successful RecordTemps of
(station, date, tmin, tmax) and any batch of later successful writes none of
which reuses that same (station, date) key, StationMax for that station
returns a tmax at least the inserted tmax, with empty error. -/
theorem stationMax_ge_inserted (st : StoreState) (sid d : String) (tmin tmax : Int)
    (ops : List (RowKey × StationRecord)) (hops : ∀ op ∈ ops, op.1 ≠ (sid, d)) :
    tmax ≤ (runStationMax (applyWrites (runRecordTemps st sid d tmin tmax).1 ops) sid).tmax ∧
    (runStationMax (applyWrites (runRecordTemps st sid d tmin tmax).1 ops) sid).error = "" := by
  have hmem : ((sid, d), (⟨tmin, tmax⟩ : StationRecord))
      ∈ applyWrites (runRecordTemps st sid d tmin tmax).1 ops :=
    mem_applyWrites ops (runRecordTemps st sid d tmin tmax).1 (sid, d) ⟨tmin, tmax⟩
      (mem_insertRecord_self st (sid, d) ⟨tmin, tmax⟩) hops
  have hval := tmax_mem_selectTmaxRows (applyWrites (runRecordTemps st sid d tmin tmax).1 ops)
      sid d ⟨tmin, tmax⟩ hmem
  constructor
  · simpa [runStationMax, stationMax] using
      le_maxTmax (selectTmaxRows (applyWrites (runRecordTemps st sid d tmin tmax).1 ops) sid)
        tmax hval
  · simp [runStationMax, stationMax]

/-- C5 witness: insert tmax 31 on 2023-07-01, then a later write on the
distinct date 2023-07-02; StationMax still answers at least 31 with empty
error. -/
theorem stationMax_ge_inserted_witness :
    (("USW00014837", "2023-07-02") ≠ (("USW00014837", "2023-07-01") : RowKey)) ∧
    (31 : Int) ≤ (runStationMax (applyWrites (runRecordTemps [] "USW00014837" "2023-07-01" 18 31).1
      [(("USW00014837", "2023-07-02"), ⟨19, 28⟩)]) "USW00014837").tmax ∧
    (runStationMax (applyWrites (runRecordTemps [] "USW00014837" "2023-07-01" 18 31).1
      [(("USW00014837", "2023-07-02"), ⟨19, 28⟩)]) "USW00014837").error = "" := by
  have h := stationMax_ge_inserted [] "USW00014837" "2023-07-01" 18 31
      [(("USW00014837", "2023-07-02"), ⟨19, 28⟩)] (by decide)
  exact ⟨by decide, h.1, h.2⟩

/-- C6: executing the identical RecordTemps call twice in succession leaves
the stations table in the same state as one execution, so the subsequent
StationMax result for that station is unchanged. -/
theorem recordTemps_idempotent (st : StoreState) (sid d : String) (tmin tmax : Int) :
    runStationMax (runRecordTemps (runRecordTemps st sid d tmin tmax).1 sid d tmin tmax).1 sid
      = runStationMax (runRecordTemps st sid d tmin tmax).1 sid := by
  show runStationMax (insertRecord (insertRecord st (sid, d) ⟨tmin, tmax⟩) (sid, d) ⟨tmin, tmax⟩) sid
      = runStationMax (insertRecord st (sid, d) ⟨tmin, tmax⟩) sid
  rw [insertRecord_idem]

/-- C7: when the name lookup yields no row, a NULL name, or an empty name,
StationName returns an empty name with the fixed descriptive error string,
which is non-empty and differs from unavailable; when a non-empty name is
found it is returned with empty error. -/
theorem stationName_not_found_contract (n : String) :
    stationName (QueryOutcome.ok none) = ⟨"", "station not found or name missing"⟩ ∧
    stationName (QueryOutcome.ok (some none)) = ⟨"", "station not found or name missing"⟩ ∧
    stationName (QueryOutcome.ok (some (some ""))) = ⟨"", "station not found or name missing"⟩ ∧
    ("station not found or name missing" ≠ "") ∧
    ("station not found or name missing" ≠ "unavailable") ∧
    (n ≠ "" → stationName (QueryOutcome.ok (some (some n))) = ⟨n, ""⟩) := by
  refine ⟨by decide, by decide, by decide, by decide, by decide, ?_⟩
  intro h
  simp [stationName, h]

/-- C7 witness: a found non-empty name is returned with empty error. -/
theorem stationName_not_found_contract_witness :
    ("MADISON" ≠ "") ∧
    stationName (QueryOutcome.ok (some (some "MADISON"))) = ⟨"MADISON", ""⟩ := by
  exact ⟨by decide, (stationName_not_found_contract "MADISON").2.2.2.2.2 (by decide)⟩

/-- C8 counterexample: an exception whose message is the empty string is a
failure outcome, yet StationSchema answers it with an empty payload and an
empty error field, so a failure is not always signalled by a non-empty error
string. -/
theorem gateway_empty_error_collision :
    isFailureOutcome (QueryOutcome.err "" : QueryOutcome String) = true ∧
    stationSchema (QueryOutcome.err "") = ⟨"", ""⟩ := by decide

/-- C8 (amended): every Gateway operation is a total function of its store
outcome (no exception escapes the handler); a reply never combines a
non-default payload with a non-empty error; success outcomes yield an empty
error; failure outcomes yield default payloads with the failure's message (or
the literal unavailable), hence a non-empty error whenever the failure's
message is non-empty. -/
theorem gateway_reply_shape (p : Bool) (o1 : QueryOutcome String)
    (o2 : QueryOutcome (Option (Option String))) (o3 : QueryOutcome Unit)
    (o4 : QueryOutcome (List (Option Int))) (m s : String) (rows : List (Option Int)) :
    ((stationSchema o1).error = "" ∨ (stationSchema o1).schema = "") ∧
    ((stationName o2).error = "" ∨ (stationName o2).name = "") ∧
    ((stationMax p o4).error = "" ∨ (stationMax p o4).tmax = 0) ∧
    (stationSchema (QueryOutcome.ok s)).error = "" ∧
    (o3 = QueryOutcome.ok () → (recordTemps o3).error = "") ∧
    (stationMax true (QueryOutcome.ok rows)).error = "" ∧
    stationSchema (QueryOutcome.err m) = ⟨"", m⟩ ∧
    stationName (QueryOutcome.err m) = ⟨"", m⟩ ∧
    recordTemps (QueryOutcome.err m) = ⟨m⟩ ∧
    stationMax true (QueryOutcome.err m) = ⟨0, m⟩ ∧
    recordTemps (QueryOutcome.unavailable m) = ⟨"unavailable"⟩ ∧
    stationMax true (QueryOutcome.unavailable m) = ⟨0, "unavailable"⟩ ∧
    (m ≠ "" →
      (stationSchema (QueryOutcome.err m)).error ≠ "" ∧
      (stationName (QueryOutcome.err m)).error ≠ "" ∧
      (recordTemps (QueryOutcome.err m)).error ≠ "" ∧
      (stationMax true (QueryOutcome.err m)).error ≠ "") := by
  refine ⟨?_, ?_, ?_, rfl, ?_, by simp [stationMax], rfl, rfl, rfl, rfl, rfl, rfl, ?_⟩
  · cases o1 with
    | ok v => exact Or.inl rfl
    | unavailable m2 => exact Or.inr rfl
    | err m2 => exact Or.inr rfl
  · cases o2 with
    | ok row =>
        rcases row with _ | (_ | n2)
        · exact Or.inr rfl
        · exact Or.inr rfl
        · by_cases h : n2 = ""
          · right
            simp [stationName, h]
          · left
            simp [stationName, h]
    | unavailable m2 => exact Or.inr rfl
    | err m2 => exact Or.inr rfl
  · cases p with
    | false => exact Or.inr rfl
    | true =>
        cases o4 with
        | ok rows2 => exact Or.inl rfl
        | unavailable m2 => exact Or.inr rfl
        | err m2 => exact Or.inr rfl
  · intro h
    rw [h]
    rfl
  · intro h
    exact ⟨h, h, h, h⟩

/-- C8 witness: with concrete outcomes, a success yields an empty error and a
failure with the non-empty message boom2 yields a non-empty error. -/
theorem gateway_reply_shape_witness :
    ((QueryOutcome.ok () : QueryOutcome Unit) = QueryOutcome.ok ()) ∧
    ("boom2" ≠ "") ∧
    (recordTemps (QueryOutcome.ok ())).error = "" ∧
    (stationSchema (QueryOutcome.err "boom2")).error ≠ "" := by
  have h := gateway_reply_shape true (QueryOutcome.ok "s") (QueryOutcome.ok none)
      (QueryOutcome.ok ()) (QueryOutcome.ok []) "boom2" "s" []
  exact ⟨rfl, by decide, h.2.2.2.2.1 rfl, (h.2.2.2.2.2.2.2.2.2.2.2.2 (by decide)).1⟩

/-- C9: from any prior cluster state the fatal startup sequence drops the
weather keyspace unconditionally, recreates it with replication factor 3 under
SimpleStrategy with no surviving rows, creates the station_record type if
absent and the stations table if absent with partition key id, clustering key
date ascending and the name column static; and if any fatal step (schema DDL
or RPC statement preparation) fails, the process never reaches the serving
state. -/
theorem bootstrap_and_fatal_startup (prior : Option KeyspaceDef) (ok : InitStep → Bool)
    (s : InitStep) (hs : s ∈ initFatalSteps) (hf : ok s = false) :
    bootstrapSchema prior = Except.ok (some weatherKeyspace) ∧
    weatherKeyspace.replication_factor = 3 ∧
    weatherKeyspace.strategy = "SimpleStrategy" ∧
    weatherKeyspace.types = [("station_record", [("tmin", "int"), ("tmax", "int")])] ∧
    weatherKeyspace.tables = [stationsTable] ∧
    weatherKeyspace.rows = [] ∧
    stationsTable.partitionKey = "id" ∧
    stationsTable.clusteringKey = "date" ∧
    stationsTable.clusteringAsc = true ∧
    stationsTable.staticColumns = ["name"] ∧
    reachesServing ok = false := by
  refine ⟨?_, rfl, rfl, rfl, rfl, rfl, rfl, rfl, rfl, rfl, ?_⟩
  · cases prior <;> rfl
  · unfold reachesServing
    cases hall : initFatalSteps.all ok
    · rfl
    · exact absurd (List.all_eq_true.mp hall s hs) (by simp [hf])

/-- C9 witness: starting from a stale keyspace holding a row, bootstrap still
yields the fresh weather keyspace; and an oracle failing exactly the
preparation of select_tmax prevents the serving state. -/
theorem bootstrap_and_fatal_startup_witness :
    (InitStep.prepareRpcStmt Stmt.select_tmax ∈ initFatalSteps) ∧
    ((fun s => decide (s ≠ InitStep.prepareRpcStmt Stmt.select_tmax))
      (InitStep.prepareRpcStmt Stmt.select_tmax) = false) ∧
    bootstrapSchema (some ⟨"OldStrategy", 1, [], [], [(("X", "2020-01-01"), ⟨1, 2⟩)]⟩)
      = Except.ok (some weatherKeyspace) ∧
    reachesServing (fun s => decide (s ≠ InitStep.prepareRpcStmt Stmt.select_tmax)) = false := by
  have h := bootstrap_and_fatal_startup
      (some ⟨"OldStrategy", 1, [], [], [(("X", "2020-01-01"), ⟨1, 2⟩)]⟩)
      (fun s => decide (s ≠ InitStep.prepareRpcStmt Stmt.select_tmax))
      (InitStep.prepareRpcStmt Stmt.select_tmax) (by decide) (by decide)
  exact ⟨by decide, by decide, h.1, h.2.2.2.2.2.2.2.2.2.2⟩

/-- C10: whenever the stored rows of a station contain at least one readable
tmax, StationMax returns the true maximum of those values (one of them, and an
upper bound), even when that maximum is negative; the 0 default arises only
when no row yields a readable value, so tmax 0 with empty error does not
distinguish a station with no data from one whose recorded maximum is 0. -/
theorem stationMax_true_max_and_ambiguity :
    (∀ rows : List (Option Int), rows.filterMap id ≠ [] →
        (stationMax true (QueryOutcome.ok rows)).tmax ∈ rows.filterMap id ∧
        ∀ w ∈ rows.filterMap id, w ≤ (stationMax true (QueryOutcome.ok rows)).tmax) ∧
    stationMax true (QueryOutcome.ok [some (-7), none, some (-3)]) = ⟨-3, ""⟩ ∧
    stationMax true (QueryOutcome.ok ([] : List (Option Int))) = ⟨0, ""⟩ ∧
    stationMax true (QueryOutcome.ok [some 0]) = ⟨0, ""⟩ := by
  refine ⟨?_, by decide, by decide, by decide⟩
  intro rows h
  exact ⟨by simpa [stationMax] using maxTmax_mem rows h,
    fun w hw => by simpa [stationMax] using le_maxTmax rows w hw⟩

/-- C10 witness: on a single readable negative value the reply is that value
itself, one of the readable values of the rows. -/
theorem stationMax_true_max_and_ambiguity_witness :
    (([some (-5)] : List (Option Int)).filterMap id ≠ []) ∧
    (stationMax true (QueryOutcome.ok [some (-5)])).tmax
      ∈ ([some (-5)] : List (Option Int)).filterMap id := by
  exact ⟨by decide, (stationMax_true_max_and_ambiguity.1 [some (-5)] (by decide)).1⟩
